import Mathlib

/-!
Verification of the toolbox container-provisioning core (cmd/create.go,
cmd/root.go, pkg/podman/podman.go, pkg/utils/utils.go) against its
natural-language specification.

The Go source is shallowly embedded: every interaction with the outside
world (the podman engine, the filesystem, D-Bus, environment variables,
the interactive prompt) is a field of a `HostEnv` record, and each embedded
function additionally returns the ordered list of engine interactions
(`Event`) it performed, so that properties about "which engine calls were
issued" can be stated and decided.
-/

namespace Toolbox

/-- Outcome of an `os.Stat` probe on one path: success, a "does not exist"
error (`os.IsNotExist` is true for it), or any other error (for example a
permission denial, for which `os.IsNotExist` is false). -/
inductive StatResult where
  | ok
  | errNotExist
  | errOther
  deriving DecidableEq, Repr

/-- `utils.PathExists` (pkg/utils/utils.go lines 218-225): wraps `os.Stat`
and returns true unless the error satisfies `os.IsNotExist`. A successful
stat and any error other than "not exist" (such as permission denied) both
yield true. -/
def PathExists (r : StatResult) : Bool :=
  match r with
  | .errNotExist => false
  | _ => true

/-- A Go `interface` value as produced by `encoding/json.Unmarshal` when the
target is `interface`-typed: JSON null becomes the nil interface, booleans
become `bool`, numbers `float64` (the numeric value is irrelevant here and
kept as `Int`), strings `string`, arrays `[]interface` and objects
`map[string]interface`. -/
inductive Jv where
  | jnull
  | jbool (b : Bool)
  | jnum (n : Int)
  | jstr (s : String)
  | jarr (elems : List Jv)
  | jobj (fields : List (String × Jv))

/-- A dynamically typed Go value, as far as the type assertions in the
source need: either a value that came out of `encoding/json.Unmarshal`
(whose array values have dynamic type `[]interface`), or a value of dynamic
type `[]string`. `json.Unmarshal` into an `interface` target never produces
a `[]string`, only the `fromJson` shapes. -/
inductive GoVal where
  | fromJson (v : Jv)
  | goStringSlice (l : List String)

/-- A Go type assertion `x.([]string)` without the comma-ok form: it yields
the slice when the dynamic type is exactly `[]string` and panics otherwise.
`none` here stands for the panic. A JSON-decoded array has dynamic type
`[]interface`, not `[]string`, so the assertion fails on every decoded
value. -/
def goAssertStringSlice : GoVal → Option (List String)
  | .goStringSlice l => some l
  | .fromJson _ => none

/-- Result of a Go function returning `(value, error)`, with Go panics kept
as a third alternative so that `panic(...)` sites and failed type
assertions are visible outcomes. -/
inductive GoRes (α : Type) where
  | ok (val : α)
  | err (msg : String)
  | panicked (msg : String)
  deriving DecidableEq, Repr

/-- One interaction with the container engine or the user, in the order the
embedded code performs them. -/
inductive Event where
  | queryContainerExists (name : String)
  | queryImageExists (ref : String)
  | engineInspect (typearg target : String)
  | promptUser (ref : String)
  | enginePull (ref : String)
  | engineCreate (args : List String)
  deriving DecidableEq, Repr

/-- Result of running the external `flatpak-spawn` child process in
`utils.ForwardToHost`: it exited 0, the binary was missing
(`exec.ErrNotFound`), it exited with a code (`exec.ExitError`), or
`cmd.Run` failed in some other way. -/
inductive SpawnResult where
  | success
  | notFound
  | exited (code : Int)
  | otherError
  deriving DecidableEq, Repr

/-- The host and engine state an invocation observes. Every field stands
for one source of outside information read by the embedded code; fields for
`utils` helpers that the repository's files do not contain
(`ImageReferenceCanBeID`, `ImageReferenceHasDomain`,
`ImageReferenceGetDomain`, `AskForConfirmation`, `GetMountPoint`,
`GetMountOptions`, `ContainerNameDefault`, `ContainerNamePrefixDefault`)
are kept opaque: the claims settled here depend only on how the code in
src/ uses their results, not on their internals. -/
structure HostEnv where
  /-- `podman container exists NAME` exited 0 (`podman.ContainerExists`
  returns a nil error exactly in this case). -/
  containerExists : String → Bool
  /-- `podman image exists REF` exited 0 (`podman.ImageExists` returns a
  nil error exactly in this case). -/
  imageExists : String → Bool
  /-- `utils.ImageReferenceCanBeID` returned a nil error (function not in
  the repository's files; opaque predicate). -/
  canBeID : String → Bool
  /-- `utils.ImageReferenceHasDomain` (not in the repository's files;
  opaque predicate). -/
  hasDomain : String → Bool
  /-- `utils.ImageReferenceGetDomain` (not in the repository's files;
  opaque function). -/
  getDomain : String → String
  /-- `rootFlags.assumeYes` (`-y`). -/
  assumeYes : Bool
  /-- Answer of `utils.AskForConfirmation` at the download prompt. -/
  confirmPull : Bool
  /-- Result of `podman.PullImage`: `none` is success, `some msg` the
  error it returned. -/
  pullError : Option String
  /-- `podman inspect --format json --type T TARGET` combined with
  `json.Unmarshal` into `[]map[string]interface`: `none` when the command
  or the decoding failed (both make `PodmanInspect` return an error),
  `some arr` the decoded array of property maps. -/
  inspectDecoded : String → String → Option (List (List (String × Jv)))
  /-- `$TOOLBOX_PATH` (empty when unset, as `os.Getenv` reports). -/
  toolboxPath : String
  /-- `user.LookupGroup` succeeded for this group name. -/
  groupExists : String → Bool
  /-- `podman.CheckVersion "1.5.0"`. -/
  podmanAtLeast150 : Bool
  /-- `$DBUS_SYSTEM_BUS_ADDRESS` (empty when unset). -/
  dbusAddressEnv : String
  /-- `filepath.EvalSymlinks`: `none` when it returned an error (Go then
  also returns an empty path string). -/
  evalSymlinks : String → Option String
  /-- Result of `utils.CallFlatpakSessionHelper`; `none` collapses its
  error returns. -/
  flatpakSessionHelper : Option String
  /-- `currentUser.HomeDir`. -/
  homeDir : String
  /-- `utils.GetMountPoint "/usr"` (not in the repository's files; opaque). -/
  usrMountPoint : Option String
  /-- `utils.GetMountOptions` (not in the repository's files; opaque). -/
  mountOptions : String → Option String
  /-- `$XDG_RUNTIME_DIR`. -/
  xdgRuntimeDir : String
  /-- Result of `getKCMSocket`; every error path of that helper returns the
  empty string and the caller only logs the error, so absence is `""`. -/
  kcmSocket : String
  /-- Outcome of `os.Stat` per path. -/
  stat : String → StatResult
  /-- `$SHELL` (`currentUserShell`). -/
  userShell : String
  /-- `currentUser.Uid`. -/
  uid : String
  /-- `currentUser.Username`. -/
  username : String
  /-- `executableBase` from cmd/root.go. -/
  executableBase : String
  /-- Modelled from the spec: `utils.ContainerNameDefault`, the bare
  default container name for the host release (the constant is not in the
  repository's files). -/
  containerNameDefault : String
  /-- Modelled from the spec: `utils.ContainerNamePrefixDefault`, the fixed
  default name stem (not in the repository's files). -/
  containerNamePrefixDefault : String
  /-- The final `podman create ...` invocation exited 0. -/
  createExitOk : Bool

/-- `utils.PathExists` applied to the stat outcome this host reports for a
path. -/
def pathExistsIn (env : HostEnv) (p : String) : Bool :=
  PathExists (env.stat p)

/-- `utils.IsInsideContainer` (pkg/utils/utils.go lines 227-233): probes
the sentinel `/run/.containerenv`. -/
def IsInsideContainer (env : HostEnv) : Bool :=
  pathExistsIn env "/run/.containerenv"

/-- `utils.IsInsideToolboxContainer` (pkg/utils/utils.go lines 235-241):
probes the sentinel `/run/.toolboxenv`. -/
def IsInsideToolboxContainer (env : HostEnv) : Bool :=
  pathExistsIn env "/run/.toolboxenv"

/-- `utils.ForwardToHost` (pkg/utils/utils.go lines 89-128), reduced to how
it maps the child-process outcome to its `(int, error)` return: exit 0 and
any error that is neither `exec.ErrNotFound` nor an `exec.ExitError` fall
through to `(0, nil)`; a missing binary yields `(1, error)`; an exit code
yields `(code, nil)`. -/
def ForwardToHost (res : SpawnResult) : Int × Option String :=
  match res with
  | .success => (0, none)
  | .notFound => (1, some "flatpak-spawn(1) not found")
  | .exited code => (code, none)
  | .otherError => (0, none)

/-- The forwarding branch shared by the container-only subcommands
(cmd/create.go lines 83-93, cmd/rm.go has the same shape): the first
component of `ForwardToHost` — the exit code — is bound to `_` and
discarded; only the error is propagated. -/
def forwardAndReport (res : SpawnResult) : Option String :=
  match ForwardToHost res with
  | (_, some e) => some e
  | (_, none) => none

/-- `cmd.Execute` (cmd/root.go lines 60-71): the process exits 1 when the
command returned an error and 0 otherwise. -/
def processExitCode (cmdErr : Option String) : Int :=
  match cmdErr with
  | some _ => 1
  | none => 0

/-- Exit code of this process when a container-only subcommand runs inside
a toolbox container and forwards to the host with the given child outcome. -/
def forwardedExitCode (res : SpawnResult) : Int :=
  processExitCode (forwardAndReport res)

/-- Leading characters of `s` up to (excluding) the first occurrence of `c`. -/
def takeUntilChar : List Char → Char → List Char
  | [], _ => []
  | a :: as, c => if a = c then [] else a :: takeUntilChar as c

/-- Whether `pat` is a leading segment of `s` (character lists). -/
def charsStartWith : List Char → List Char → Bool
  | _, [] => true
  | [], _ :: _ => false
  | a :: as, b :: bs => (a = b) && charsStartWith as bs

/-- Go `strings.Contains s sub` over character lists. -/
def goContainsChars : List Char → List Char → Bool
  | s, sub =>
    if charsStartWith s sub then true
    else
      match s with
      | [] => false
      | _ :: tail => goContainsChars tail sub

/-- Go `strings.Contains`. -/
def goContains (s sub : String) : Bool :=
  goContainsChars s.toList sub.toList

/-- Go `strings.Split s sep` for a one-character separator: the segments of
`s` between occurrences of the separator; splitting the empty string gives
one empty segment. -/
def splitOnChar : List Char → Char → List (List Char)
  | [], _ => [[]]
  | a :: as, c =>
    let r := splitOnChar as c
    if a = c then [] :: r
    else
      match r with
      | [] => [[a]]
      | h :: t => (a :: h) :: t

/-- Go `strings.Split` on `"="` as used for the D-Bus address. -/
def goSplitEquals (s : String) : List String :=
  (splitOnChar s.toList '=').map (fun l => String.mk l)

/-- `PodmanInspect` (pkg/podman/podman.go lines 124-142): runs
`podman inspect --format json --type T TARGET`, decodes the output into an
array of property maps, and returns `info[0]` — a Go index expression that
panics when the decoded array is empty. A command or decoding failure
returns an error. -/
def PodmanInspect (env : HostEnv) (typearg target : String) :
    GoRes (List (String × Jv)) × List Event :=
  match env.inspectDecoded typearg target with
  | none => (.err "podman inspect failed", [.engineInspect typearg target])
  | some [] => (.panicked "index out of range", [.engineInspect typearg target])
  | some (m :: _) => (.ok m, [.engineInspect typearg target])

/-- Go `info[key] == nil` on a decoded `map[string]interface`: true when
the key is absent or its value is JSON null (both are the nil interface). -/
def goIsNil : Option Jv → Bool
  | none => true
  | some .jnull => true
  | some _ => false

/-- `getEnterCommand` (cmd/create.go lines 410-423). -/
def getEnterCommand (env : HostEnv) (container release : String) : String :=
  if container = env.containerNameDefault then
    env.executableBase ++ " enter"
  else if container = env.containerNamePrefixDefault then
    env.executableBase ++ " enter --release " ++ release
  else
    env.executableBase ++ " enter --container " ++ container

/-- `getFullyQualifiedImageName` (cmd/create.go lines 425-449): a
domain-qualified reference is returned as is; otherwise the image is
inspected and the first `RepoTags` entry is meant to be returned. The
source reads the field with the type assertion
`info["RepoTags"].([]string)`, and a JSON-decoded array has dynamic type
`[]interface`, so the assertion panics whenever the field is present and
not null. -/
def getFullyQualifiedImageName (env : HostEnv) (image : String) :
    GoRes String × List Event :=
  if env.hasDomain image then (.ok image, [])
  else
    match PodmanInspect env "image" image with
    | (.err _, evs) => (.err ("failed to inspect image " ++ image), evs)
    | (.panicked m, evs) => (.panicked m, evs)
    | (.ok info, evs) =>
      let v := info.lookup "RepoTags"
      if goIsNil v then (.err ("missing RepoTag for image " ++ image), evs)
      else
        match goAssertStringSlice (GoVal.fromJson (v.getD .jnull)) with
        | none =>
          (.panicked "interface conversion: interface is not []string", evs)
        | some repoTags =>
          if repoTags.length = 0 then
            (.err ("empty RepoTag for image " ++ image), evs)
          else (.ok (repoTags.headD ""), evs)

/-- `getDBusSystemSocket` (cmd/create.go lines 388-408). -/
def getDBusSystemSocket (env : HostEnv) : GoRes String :=
  let address :=
    if env.dbusAddressEnv = "" then "unix:path=/var/run/dbus/system_bus_socket"
    else env.dbusAddressEnv
  let addressSplit := goSplitEquals address
  if addressSplit.length ≠ 2 then
    .err "failed to get the path to the D-Bus system socket"
  else
    let path := addressSplit.getD 1 ""
    match env.evalSymlinks path with
    | none => .err "failed to resolve the path to the D-Bus system socket"
    | some pathEvaled => .ok pathEvaled

/-- `utils.GetGroupForSudo` (pkg/utils/utils.go lines 164-177): the loop
over `["sudo", "wheel"]` unrolled. -/
def GetGroupForSudo (env : HostEnv) : GoRes String :=
  if env.groupExists "sudo" then .ok "sudo"
  else if env.groupExists "wheel" then .ok "wheel"
  else .err "group for sudo not found"

/-- `isUsrReadWrite` (cmd/create.go lines 491-513). -/
def isUsrReadWrite (env : HostEnv) : GoRes Bool :=
  match env.usrMountPoint with
  | none => .err "failed to get the mount-point of /usr"
  | some mountPoint =>
    match env.mountOptions mountPoint with
    | none => .err ("failed to get the mount options of " ++ mountPoint)
    | some mountFlags =>
      if !(goContains mountFlags "ro") then .ok true else .ok false

/-- `pullImage` (cmd/create.go lines 515-587). Returns the Go `(bool,
error)` pair (the bool of every error return in the source is false) and
the trace of engine queries, prompts and pulls. -/
def pullImage (env : HostEnv) (image release : String) :
    GoRes Bool × List Event :=
  if env.canBeID image && env.imageExists image then
    (.ok true, [.queryImageExists image])
  else
    let t0 : List Event :=
      if env.canBeID image then [.queryImageExists image] else []
    if !env.hasDomain image && env.imageExists ("localhost/" ++ image) then
      (.ok true, t0 ++ [.queryImageExists ("localhost/" ++ image)])
    else
      let t1 := t0 ++
        (if !env.hasDomain image then
          [Event.queryImageExists ("localhost/" ++ image)]
        else [])
      let imageFull :=
        if env.hasDomain image then image
        else "registry.fedoraproject.org/f" ++ release ++ "/" ++ image
      if env.imageExists imageFull then
        (.ok true, t1 ++ [.queryImageExists imageFull])
      else
        let t2 := t1 ++ [Event.queryImageExists imageFull]
        let domain := env.getDomain imageFull
        if domain = "" then
          (.panicked ("failed to get domain from " ++ imageFull), t2)
        else if env.assumeYes || domain == "localhost" then
          match env.pullError with
          | some e => (.err e, t2 ++ [.enginePull imageFull])
          | none => (.ok true, t2 ++ [.enginePull imageFull])
        else
          let t3 := t2 ++ [Event.promptUser imageFull]
          if env.confirmPull then
            match env.pullError with
            | some e => (.err e, t3 ++ [.enginePull imageFull])
            | none => (.ok true, t3 ++ [.enginePull imageFull])
          else
            (.err "cancelled by user", t3)

/-- `filepath.EvalSymlinks` with the error discarded, as in
`mediaPath, _ := filepath.EvalSymlinks(...)`: Go returns the empty string
alongside an error. -/
def evalSymlinksDiscard (env : HostEnv) (p : String) : String :=
  (env.evalSymlinks p).getD ""

/-- `createToolboxShMounts` (cmd/create.go lines 42-48) as
(containerPath, source) pairs. -/
def createToolboxShMounts : List (String × String) :=
  [("/etc/profile.d/toolbox.sh", "/etc/profile.d/toolbox.sh"),
   ("/etc/profile.d/toolbox.sh", "/usr/share/profile.d/toolbox.sh")]

/-- The toolbox.sh lookup loop (cmd/create.go lines 243-253): the first
candidate whose source exists contributes a read-only volume; none
existing contributes nothing. -/
def toolboxShMount (env : HostEnv) : List String :=
  match createToolboxShMounts.find? (fun m => pathExistsIn env m.2) with
  | some m => ["--volume", m.2 ++ ":" ++ m.1 ++ ":ro"]
  | none => []

/-- The `/media` handling (cmd/create.go lines 255-268): guarded by
`utils.PathExists "/media"`; the canonicalized path (error discarded) is
compared against the string `"run/media"`. First component is
`mediaLink`, second `mediaMount`. -/
def mediaArgs (env : HostEnv) : List String × List String :=
  if pathExistsIn env "/media" then
    if evalSymlinksDiscard env "/media" = "run/media" then
      (["--media-link"], [])
    else
      ([], ["--volume", "/media:/media:rslave"])
  else ([], [])

/-- The `/mnt` handling (cmd/create.go lines 270-281): not guarded by any
existence check; the canonicalized path (error discarded) is compared
against the string `"var/mnt"`. First component is `mntLink`, second
`mntMount`. -/
def mntArgs (env : HostEnv) : List String × List String :=
  if evalSymlinksDiscard env "/mnt" = "var/mnt" then
    (["--mnt-link"], [])
  else
    ([], ["--volume", "/mnt:/mnt:rslave"])

/-- The `/run/media` handling (cmd/create.go lines 283-287). -/
def runMediaMount (env : HostEnv) : List String :=
  if pathExistsIn env "/run/media" then
    ["--volume", "/run/media:/run/media:rslave"]
  else []

/-- The `/home` handling (cmd/create.go lines 289-297): only a flag is ever
produced, there is no `/home` bind-mount branch. -/
def slashHomeLink (env : HostEnv) : List String :=
  if evalSymlinksDiscard env "/home" = "/var/home" then ["--home-link"] else []

/-- `createContainer` (cmd/create.go lines 137-380). The embedding follows
the source statement by statement; the returned event list is the ordered
engine/user interaction trace. Noteworthy source behaviours kept as they
are written: the existence check takes the "already exists" branch when
`podman.ContainerExists` returns an error, which happens exactly when the
engine reports that no such container exists; and a failing `pullImage` is
answered with `return nil`. -/
def createContainer (env : HostEnv) (container image release : String) :
    GoRes Unit × List Event :=
  if container = "" then (.panicked "container not specified", [])
  else if image = "" then (.panicked "image not specified", [])
  else if release = "" then (.panicked "release not specified", [])
  else
    let enterCommand := getEnterCommand env container release
    if !env.containerExists container then
      (.err ("container " ++ container ++ " already exists\nEnter with: "
          ++ enterCommand ++ "\nRun 'toolbox --help' for usage."),
        [.queryContainerExists container])
    else
      let t0 : List Event := [.queryContainerExists container]
      match pullImage env image release with
      | (.panicked m, evs) => (.panicked m, t0 ++ evs)
      | (.err _, evs) => (.ok (), t0 ++ evs)
      | (.ok _, evs) =>
        let t1 := t0 ++ evs
        match getFullyQualifiedImageName env image with
        | (.err m, evs2) => (.err m, t1 ++ evs2)
        | (.panicked m, evs2) => (.panicked m, t1 ++ evs2)
        | (.ok imageFull, evs2) =>
          let t2 := t1 ++ evs2
          let toolboxPathEnvArg := "TOOLBOX_PATH=" ++ env.toolboxPath
          let toolboxPathMountArg := env.toolboxPath ++ ":/usr/bin/toolbox:ro"
          match GetGroupForSudo env with
          | .err m => (.err m, t2)
          | .panicked m => (.panicked m, t2)
          | .ok sudoGroup =>
            let ulimitHost : List String :=
              if env.podmanAtLeast150 then ["--ulimit", "host"] else []
            match getDBusSystemSocket env with
            | .err m => (.err m, t2)
            | .panicked m => (.panicked m, t2)
            | .ok dbusSystemSocket =>
              let dbusSystemSocketMountArg :=
                dbusSystemSocket ++ ":" ++ dbusSystemSocket
              match env.flatpakSessionHelper with
              | none =>
                (.err "failed to call org.freedesktop.Flatpak.SessionHelper.RequestSession",
                  t2)
              | some flatpakHelperMonitorPath =>
                let flatpakHelperMonitorMountArg :=
                  flatpakHelperMonitorPath ++ ":/run/host/monitor"
                match env.evalSymlinks env.homeDir with
                | none => (.err ("failed to canonicalize " ++ env.homeDir), t2)
                | some homeDirEvaled =>
                  let homeDirMountArg :=
                    homeDirEvaled ++ ":" ++ homeDirEvaled ++ ":rslave"
                  match isUsrReadWrite env with
                  | .err m => (.err m, t2)
                  | .panicked m => (.panicked m, t2)
                  | .ok usrRW =>
                    let usrMountFlags := if usrRW then "rw" else "ro"
                    let usrMountArg :=
                      "/usr:/run/host/usr:" ++ usrMountFlags ++ ",rslave"
                    let xdgRuntimeDirMountArg :=
                      env.xdgRuntimeDir ++ ":" ++ env.xdgRuntimeDir
                    let kcmSocketMount : List String :=
                      if env.kcmSocket ≠ "" then
                        ["--volume", env.kcmSocket ++ ":" ++ env.kcmSocket]
                      else []
                    let tsMount := toolboxShMount env
                    let media := mediaArgs env
                    let mnt := mntArgs env
                    let runMedia := runMediaMount env
                    let homeLink := slashHomeLink env
                    let entryPoint :=
                      ["toolbox", "--log-level", "debug", "init-container",
                        "--home", env.homeDir]
                      ++ homeLink ++ media.1 ++ mnt.1
                      ++ ["--monitor-host", "--shell", env.userShell,
                        "--uid", env.uid, "--user", env.username]
                    let createArgs :=
                      ["create", "--dns", "none", "--env", toolboxPathEnvArg,
                        "--group-add", sudoGroup, "--hostname", "toolbox",
                        "--ipc", "host",
                        "--label", "com.github.containers.toolbox=true",
                        "--label", "com.github.debarshiray.toolbox=true",
                        "--name", container, "--network", "host", "--no-hosts",
                        "--pid", "host", "--privileged",
                        "--security-opt", "label=disable"]
                      ++ ulimitHost
                      ++ ["--userns=keep-id", "--user", "root:root",
                        "--volume", "/etc:/run/host/etc",
                        "--volume", "/dev:/dev:rslave",
                        "--volume", "/run:/run/host/run:rslave",
                        "--volume", "/tmp:/run/host/tmp:rslave",
                        "--volume", "/var:/run/host/var:rslave",
                        "--volume", dbusSystemSocketMountArg,
                        "--volume", flatpakHelperMonitorMountArg,
                        "--volume", homeDirMountArg,
                        "--volume", toolboxPathMountArg,
                        "--volume", usrMountArg,
                        "--volume", xdgRuntimeDirMountArg]
                      ++ kcmSocketMount ++ media.2 ++ mnt.2
                      ++ runMedia ++ tsMount
                      ++ [imageFull] ++ entryPoint
                    if env.createExitOk then
                      (.ok (), t2 ++ [.engineCreate createArgs])
                    else
                      (.err ("failed to create container " ++ container),
                        t2 ++ [.engineCreate createArgs])

/-- The image-existence queries of a trace, in order. -/
def imageQueries (evs : List Event) : List String :=
  evs.filterMap (fun e =>
    match e with
    | .queryImageExists r => some r
    | _ => none)

/-- The pull invocations of a trace, in order. -/
def pullTargets (evs : List Event) : List String :=
  evs.filterMap (fun e =>
    match e with
    | .enginePull r => some r
    | _ => none)

/-- The argument lists of the engine create invocations of a trace. -/
def createInvocations (evs : List Event) : List (List String) :=
  evs.filterMap (fun e =>
    match e with
    | .engineCreate a => some a
    | _ => none)

/-- The volume specifications of an engine argument list: every argument
that directly follows a `--volume`. -/
def volumeSpecs : List String → List String
  | "--volume" :: v :: rest => v :: volumeSpecs rest
  | _ :: rest => volumeSpecs rest
  | [] => []

/-- The host source path of a volume specification `src:dest[:opts]`. -/
def mountSrc (spec : String) : String :=
  String.mk (takeUntilChar spec.toList ':')

/-- The candidate references `pullImage` may probe for local existence, in
source order: the reference itself when it can be an image id, the
`localhost/` tag when it has no domain, and the resolved fully-qualified
reference. -/
def lookupCandidates (env : HostEnv) (image release : String) : List String :=
  (if env.canBeID image then [image] else [])
  ++ (if env.hasDomain image then [] else ["localhost/" ++ image])
  ++ [if env.hasDomain image then image
      else "registry.fedoraproject.org/f" ++ release ++ "/" ++ image]

/-- First-match-wins probing: the candidates queried, up to and including
the first one that exists. -/
def upToFirstHit (hit : String → Bool) : List String → List String
  | [] => []
  | c :: cs => if hit c then [c] else c :: upToFirstHit hit cs

/-- A host/engine state all concrete evaluations start from: the engine
reports the target container as existing (which the inverted check in
`createContainer` requires in order to proceed), no image exists, every
path stats fine as itself, canonicalization is the identity. -/
def baseEnv : HostEnv where
  containerExists := fun _ => true
  imageExists := fun _ => false
  canBeID := fun _ => false
  hasDomain := fun _ => false
  getDomain := fun _ => "registry.fedoraproject.org"
  assumeYes := false
  confirmPull := false
  pullError := none
  inspectDecoded := fun _ _ => none
  toolboxPath := "/usr/bin/toolbox"
  groupExists := fun g => g == "wheel"
  podmanAtLeast150 := true
  dbusAddressEnv := ""
  evalSymlinks := fun p => some p
  flatpakSessionHelper := some "/run/user/1000/.flatpak-helper/monitor"
  homeDir := "/home/test"
  usrMountPoint := some "/usr"
  mountOptions := fun _ => some "ro,relatime"
  xdgRuntimeDir := "/run/user/1000"
  kcmSocket := ""
  stat := fun _ => .ok
  userShell := "/bin/bash"
  uid := "1000"
  username := "test"
  executableBase := "toolbox"
  containerNameDefault := "fedora-toolbox-32"
  containerNamePrefixDefault := "fedora-toolbox"
  createExitOk := true

/-- A host where the full success path of `createContainer` is reachable:
the image is domain-qualified and exists locally. -/
def envCreate : HostEnv :=
  { baseEnv with
    canBeID := fun _ => true
    hasDomain := fun _ => true
    imageExists := fun _ => true }

/-- A host whose engine has no container with the requested name. -/
def envAbsent : HostEnv := { baseEnv with containerExists := fun _ => false }

/-- A host where the requested image exists only as the unqualified local
tag `localhost/foo`. -/
def envLocalTag : HostEnv :=
  { baseEnv with imageExists := fun r => r == "localhost/foo" }

/-- A host where `/media` exists and canonicalizes to `/run/media` (the
Silverblue-style layout the spec describes) and `/mnt` does not exist. -/
def envC6 : HostEnv :=
  { envCreate with
    stat := fun p => if p == "/mnt" then .errNotExist else .ok
    evalSymlinks := fun p =>
      if p == "/media" then some "/run/media"
      else if p == "/mnt" then none
      else some p }

/-- A host identical to `envCreate` except that `/mnt` does not exist. -/
def envC7 : HostEnv :=
  { envCreate with
    stat := fun p => if p == "/mnt" then .errNotExist else .ok
    evalSymlinks := fun p => if p == "/mnt" then none else some p }

/-- A host where every optional mount resource (`/media`, `/run/media`,
`/mnt`, both toolbox.sh locations) is absent. -/
def envW7 : HostEnv :=
  { envCreate with
    stat := fun p =>
      if p == "/media" || p == "/run/media" || p == "/mnt"
          || p == "/etc/profile.d/toolbox.sh"
          || p == "/usr/share/profile.d/toolbox.sh" then
        .errNotExist
      else .ok
    evalSymlinks := fun p => if p == "/mnt" then none else some p }

/-- An engine whose image inspection reports a present, non-empty
`RepoTags` array for the unqualified reference. -/
def envC9 : HostEnv :=
  { baseEnv with
    inspectDecoded := fun typearg target =>
      if typearg == "image" && target == "fedora-toolbox:32" then
        some [[("RepoTags",
          Jv.jarr [Jv.jstr "registry.fedoraproject.org/f32/fedora-toolbox:32"])]]
      else none }

set_option maxHeartbeats 1000000

/-- Helper for the resolution-order claim: the image-existence queries
`pullImage` issues are exactly the candidate references in source order up
to and including the first one the engine reports as existing. -/
lemma pull_queries (env : HostEnv) (image release : String) :
    imageQueries (pullImage env image release).2 =
      upToFirstHit env.imageExists (lookupCandidates env image release) := by
  cases hc : env.canBeID image <;>
  cases hd : env.hasDomain image <;>
  cases he1 : env.imageExists image <;>
  cases he2 : env.imageExists ("localhost/" ++ image) <;>
  cases he3 : env.imageExists ("registry.fedoraproject.org/f" ++ release ++ "/" ++ image) <;>
  simp [pullImage, lookupCandidates, imageQueries, upToFirstHit, hc, hd, he1, he2, he3] <;>
  (try (split <;> (try simp [imageQueries]))) <;>
  (try (split <;> (try simp [imageQueries]))) <;>
  (try (split <;> (try simp [imageQueries]))) <;>
  (try (split <;> (try simp [imageQueries])))

/-- Helper for the resolution-order claim: when some candidate exists, no
pull is issued and the source returns `(true, nil)`. -/
lemma pull_hit (env : HostEnv) (image release : String)
    (h : ∃ c ∈ lookupCandidates env image release, env.imageExists c = true) :
    pullTargets (pullImage env image release).2 = []
    ∧ (pullImage env image release).1 = .ok true := by
  obtain ⟨c, hcm, hce⟩ := h
  cases hc : env.canBeID image <;>
  cases hd : env.hasDomain image <;>
  cases he1 : env.imageExists image <;>
  cases he2 : env.imageExists ("localhost/" ++ image) <;>
  cases he3 : env.imageExists ("registry.fedoraproject.org/f" ++ release ++ "/" ++ image) <;>
  simp_all [pullImage, lookupCandidates, pullTargets] <;>
  (try (rcases hcm with rfl | rfl | rfl)) <;>
  simp_all

/-- Helper for the resolution-order claim: either no pull happens, or every
candidate was missing and the single pull targets the resolved
fully-qualified reference. -/
lemma pull_cases (env : HostEnv) (image release : String) :
    pullTargets (pullImage env image release).2 = []
    ∨ ((∀ c ∈ lookupCandidates env image release, env.imageExists c = false)
      ∧ pullTargets (pullImage env image release).2 =
          [if env.hasDomain image then image
           else "registry.fedoraproject.org/f" ++ release ++ "/" ++ image]) := by
  cases hc : env.canBeID image <;>
  cases hd : env.hasDomain image <;>
  cases he1 : env.imageExists image <;>
  cases he2 : env.imageExists ("localhost/" ++ image) <;>
  cases he3 : env.imageExists ("registry.fedoraproject.org/f" ++ release ++ "/" ++ image) <;>
  simp_all [pullImage, lookupCandidates, pullTargets] <;>
  (try (split <;> (try simp_all [pullTargets]))) <;>
  (try (split <;> (try simp_all [pullTargets]))) <;>
  (try (split <;> (try simp_all [pullTargets]))) <;>
  (try (split <;> (try simp_all [pullTargets])))

/-- C1: the source inverts the existence check. `podman.ContainerExists`
returns an error exactly when the engine reports that no container with
the name exists, and `createContainer` takes that error branch as "already
exists": on an engine with no such container it fails with the actionable
"container NAME already exists / Enter with: ..." message and never
reaches any further engine call, instead of proceeding to provision. -/
theorem c1_create_fails_when_container_absent :
    createContainer envAbsent "fedora-toolbox-33" "fedora-toolbox:33" "33" =
      (.err ("container fedora-toolbox-33 already exists\nEnter with: toolbox enter --container fedora-toolbox-33\nRun 'toolbox --help' for usage."),
        [.queryContainerExists "fedora-toolbox-33"])
    ∧ envAbsent.containerExists "fedora-toolbox-33" = false
    ∧ createInvocations
        (createContainer envAbsent "fedora-toolbox-33" "fedora-toolbox:33" "33").2 = [] :=
  ⟨rfl, rfl, rfl⟩

/-- C2: when image acquisition fails — here with the user-cancellation
error produced by declining the pull prompt — `createContainer` answers
the error with `return nil`: the command reports success (so the process
exits 0), no pull and no create are issued, and the error never surfaces. -/
theorem c2_pull_error_swallowed :
    (pullImage baseEnv "fedora-toolbox:33" "33").1 = .err "cancelled by user"
    ∧ (createContainer baseEnv "fedora-toolbox-33" "fedora-toolbox:33" "33").1 = .ok ()
    ∧ pullTargets
        (createContainer baseEnv "fedora-toolbox-33" "fedora-toolbox:33" "33").2 = []
    ∧ createInvocations
        (createContainer baseEnv "fedora-toolbox-33" "fedora-toolbox:33" "33").2 = [] :=
  ⟨rfl, rfl, rfl, rfl⟩

/-- C3 counterexample: a forwarded process that exits with code 7 does not
make this process exit 7 — the exit code is discarded and the process
exits 0. -/
theorem c3_forwarded_exit_code_dropped :
    forwardedExitCode (SpawnResult.exited 7) = 0
    ∧ forwardedExitCode (SpawnResult.exited 7) ≠ 7 :=
  ⟨rfl, by decide⟩

/-- C3 as amended: the forwarding path discards the forwarded process's
exit code; this process exits 1 only when the escape-channel binary is
missing and 0 in every other case, whatever the forwarded exit code was. -/
theorem c3_exit_code_independent_of_forwarded (res : SpawnResult) :
    forwardedExitCode res = (if res = SpawnResult.notFound then 1 else 0) := by
  cases res <;> rfl

/-- C4 counterexample: with `localhost/foo` existing locally, `pullImage`
returns `(true, nil)` — not the `pulled=false` the claim states — while
indeed issuing no pull. -/
theorem c4_local_tag_returns_true :
    (pullImage envLocalTag "foo" "32").1 = .ok true
    ∧ (pullImage envLocalTag "foo" "32").1 ≠ .ok false
    ∧ pullTargets (pullImage envLocalTag "foo" "32").2 = [] :=
  ⟨rfl, by decide, rfl⟩

/-- C4 as amended: for every image reference that exists locally as an
unqualified tag under `localhost/`, `pullImage` returns true (the image is
available) and never issues an engine pull. -/
theorem c4_local_tag_no_pull (env : HostEnv) (image release : String)
    (hd : env.hasDomain image = false)
    (hl : env.imageExists ("localhost/" ++ image) = true) :
    (pullImage env image release).1 = .ok true
    ∧ pullTargets (pullImage env image release).2 = [] := by
  by_cases hc : env.canBeID image = true <;>
    by_cases hi : env.imageExists image = true <;>
    simp_all [pullImage, pullTargets]

/-- Witness for C4: the amended theorem applied to a concrete host with a
local `localhost/foo` tag. -/
theorem c4_local_tag_no_pull_witness :
    (pullImage envLocalTag "foo" "32").1 = .ok true
    ∧ pullTargets (pullImage envLocalTag "foo" "32").2 = [] :=
  c4_local_tag_no_pull envLocalTag "foo" "32" rfl rfl

/-- C5 counterexample: on a host where `/home` does not canonicalize to
`/var/home`, the create invocation contains no bind mount whose source is
`/home` (the claim states exactly one `rslave` `/home` mount) and no
home-symlink flag; the run does reach the single engine create call. -/
theorem c5_no_home_mount_emitted :
    evalSymlinksDiscard envCreate "/home" = "/home"
    ∧ (createContainer envCreate "my-toolbox"
        "registry.fedoraproject.org/f32/fedora-toolbox:32" "32").1 = .ok ()
    ∧ (createInvocations (createContainer envCreate "my-toolbox"
        "registry.fedoraproject.org/f32/fedora-toolbox:32" "32").2).length = 1
    ∧ ((createInvocations (createContainer envCreate "my-toolbox"
        "registry.fedoraproject.org/f32/fedora-toolbox:32" "32").2).all
        fun args =>
          ((volumeSpecs args).all fun v => mountSrc v != "/home")
            && !(args.contains "--home-link")) = true :=
  ⟨rfl, rfl, rfl, by decide⟩

/-- C5 as amended: the `/home` handling emits the home-symlink flag exactly
when `/home` canonicalizes to `/var/home`, and in neither case does the
mount-topology computation emit a bind mount with source `/home` — the
user's home directory, canonicalized separately, is what gets mounted. -/
theorem c5_home_topology (env : HostEnv) :
    slashHomeLink env =
      (if evalSymlinksDiscard env "/home" = "/var/home" then ["--home-link"] else [])
    ∧ "/home" ∉ ((mediaArgs env).2 ++ (mntArgs env).2 ++ runMediaMount env
        ++ toolboxShMount env).map mountSrc := by
  refine ⟨rfl, ?_⟩
  by_cases e1 : pathExistsIn env "/media" = true <;>
  by_cases e2 : evalSymlinksDiscard env "/media" = "run/media" <;>
  by_cases e3 : evalSymlinksDiscard env "/mnt" = "var/mnt" <;>
  by_cases e4 : pathExistsIn env "/run/media" = true <;>
  by_cases t1 : pathExistsIn env "/etc/profile.d/toolbox.sh" = true <;>
  by_cases t2 : pathExistsIn env "/usr/share/profile.d/toolbox.sh" = true <;>
    simp [mediaArgs, mntArgs, runMediaMount, toolboxShMount, createToolboxShMounts,
      List.find?, e1, e2, e3, e4, t1, t2, mountSrc, takeUntilChar]

/-- C6 counterexample: on a host where `/media` exists and its canonical
target is `/run/media`, the builder emits the `rslave` bind mount and no
`--media-link` flag (the comparison in the source is against the relative
string "run/media", which canonicalization of an absolute path never
yields); and for `/mnt`, which does not exist on this host, the bind mount
is emitted anyway. -/
theorem c6_media_symlink_pattern_missed :
    pathExistsIn envC6 "/media" = true
    ∧ evalSymlinksDiscard envC6 "/media" = "/run/media"
    ∧ mediaArgs envC6 = ([], ["--volume", "/media:/media:rslave"])
    ∧ pathExistsIn envC6 "/mnt" = false
    ∧ mntArgs envC6 = ([], ["--volume", "/mnt:/mnt:rslave"]) :=
  ⟨rfl, rfl, rfl, rfl, rfl⟩

/-- C6 as amended: the topology flags fire exactly when the canonicalized
path equals the relative strings "run/media" and "var/mnt"; otherwise the
`/media` bind mount is emitted whenever `/media` exists, and the `/mnt`
bind mount is emitted unconditionally — with no existence guard. -/
theorem c6_media_mnt_topology (env : HostEnv) :
    (("--media-link" ∈ (mediaArgs env).1) ↔
      (pathExistsIn env "/media" = true
        ∧ evalSymlinksDiscard env "/media" = "run/media"))
    ∧ ((mediaArgs env).2 ≠ [] ↔
      (pathExistsIn env "/media" = true
        ∧ evalSymlinksDiscard env "/media" ≠ "run/media"))
    ∧ (("--mnt-link" ∈ (mntArgs env).1) ↔ evalSymlinksDiscard env "/mnt" = "var/mnt")
    ∧ ((mntArgs env).2 ≠ [] ↔ evalSymlinksDiscard env "/mnt" ≠ "var/mnt") := by
  by_cases e1 : pathExistsIn env "/media" = true <;>
  by_cases e2 : evalSymlinksDiscard env "/media" = "run/media" <;>
  by_cases e3 : evalSymlinksDiscard env "/mnt" = "var/mnt" <;>
    simp [mediaArgs, mntArgs, e1, e2, e3]

/-- C7 counterexample: with `/mnt` absent, the engine create invocation
still contains the `/mnt:/mnt:rslave` bind mount — a mount entry whose
source does not exist at computation time. -/
theorem c7_mnt_mount_source_missing :
    PathExists (envC7.stat "/mnt") = false
    ∧ (createContainer envC7 "my-toolbox"
        "registry.fedoraproject.org/f32/fedora-toolbox:32" "32").1 = .ok ()
    ∧ ((createInvocations (createContainer envC7 "my-toolbox"
        "registry.fedoraproject.org/f32/fedora-toolbox:32" "32").2).all
        fun args => (volumeSpecs args).contains "/mnt:/mnt:rslave") = true
    ∧ (createInvocations (createContainer envC7 "my-toolbox"
        "registry.fedoraproject.org/f32/fedora-toolbox:32" "32").2).length = 1 :=
  ⟨rfl, rfl, by decide, rfl⟩

/-- C7 as amended: when the optional resources `/media`, `/run/media` and
the toolbox.sh profile script are absent, their mount entries are omitted
and the operation still succeeds; the `/mnt` bind mount, however, is
emitted even though `/mnt` is absent. -/
theorem c7_optional_mounts_omitted (env : HostEnv)
    (c i r dsock fp he g : String) (urw : Bool)
    (hc : c ≠ "") (hi : i ≠ "") (hr : r ≠ "")
    (hex : env.containerExists c = true)
    (hid : env.canBeID i = true) (hie : env.imageExists i = true)
    (hdm : env.hasDomain i = true)
    (hgrp : GetGroupForSudo env = .ok g)
    (hdbus : getDBusSystemSocket env = .ok dsock)
    (hfp : env.flatpakSessionHelper = some fp)
    (hhe : env.evalSymlinks env.homeDir = some he)
    (hurw : isUsrReadWrite env = .ok urw)
    (hok : env.createExitOk = true)
    (hmed : env.stat "/media" = .errNotExist)
    (hrm : env.stat "/run/media" = .errNotExist)
    (ht1 : env.stat "/etc/profile.d/toolbox.sh" = .errNotExist)
    (ht2 : env.stat "/usr/share/profile.d/toolbox.sh" = .errNotExist)
    (hmnt : env.stat "/mnt" = .errNotExist)
    (hme : env.evalSymlinks "/mnt" = none) :
    (createContainer env c i r).1 = .ok ()
    ∧ mediaArgs env = ([], [])
    ∧ runMediaMount env = []
    ∧ toolboxShMount env = []
    ∧ PathExists (env.stat "/mnt") = false
    ∧ mntArgs env = ([], ["--volume", "/mnt:/mnt:rslave"]) := by
  have hpull : pullImage env i r = (.ok true, [.queryImageExists i]) := by
    simp [pullImage, hid, hie]
  have hfq : getFullyQualifiedImageName env i = (.ok i, []) := by
    simp [getFullyQualifiedImageName, hdm]
  refine ⟨?_, ?_, ?_, ?_, ?_, ?_⟩
  · simp [createContainer, hc, hi, hr, hex, hpull, hfq, hgrp, hdbus, hfp, hhe, hurw, hok]
  · simp [mediaArgs, pathExistsIn, PathExists, hmed]
  · simp [runMediaMount, pathExistsIn, PathExists, hrm]
  · simp [toolboxShMount, createToolboxShMounts, List.find?, pathExistsIn, PathExists,
      ht1, ht2]
  · simp [PathExists, hmnt]
  · simp [mntArgs, evalSymlinksDiscard, hme]

/-- Witness for C7: the amended theorem applied to a concrete host with
every optional resource absent. -/
theorem c7_optional_mounts_omitted_witness :
    (createContainer envW7 "my-toolbox"
        "registry.fedoraproject.org/f32/fedora-toolbox:32" "32").1 = .ok ()
    ∧ mediaArgs envW7 = ([], [])
    ∧ runMediaMount envW7 = []
    ∧ toolboxShMount envW7 = []
    ∧ PathExists (envW7.stat "/mnt") = false
    ∧ mntArgs envW7 = ([], ["--volume", "/mnt:/mnt:rslave"]) :=
  c7_optional_mounts_omitted envW7 "my-toolbox"
    "registry.fedoraproject.org/f32/fedora-toolbox:32" "32"
    "/var/run/dbus/system_bus_socket" "/run/user/1000/.flatpak-helper/monitor"
    "/home/test" "wheel" false
    (by decide) (by decide) (by decide)
    rfl rfl rfl rfl rfl rfl rfl rfl rfl rfl rfl rfl rfl rfl rfl rfl

/-- C8: image acquisition checks for an existing image in exactly the
source order — the reference as a content id when it can be one, then the
`localhost/` tag when it has no domain, then the release-qualified
default-registry reference (or the reference itself when domain-qualified)
— first match winning with no pull; a pull happens only when none of the
candidates exists, and then targets the resolved fully-qualified
reference. -/
theorem c8_resolution_order (env : HostEnv) (image release : String) :
    imageQueries (pullImage env image release).2 =
      upToFirstHit env.imageExists (lookupCandidates env image release)
    ∧ ((∃ c ∈ lookupCandidates env image release, env.imageExists c = true) →
        pullTargets (pullImage env image release).2 = []
        ∧ (pullImage env image release).1 = .ok true)
    ∧ (pullTargets (pullImage env image release).2 ≠ [] →
        (∀ c ∈ lookupCandidates env image release, env.imageExists c = false)
        ∧ pullTargets (pullImage env image release).2 =
            [if env.hasDomain image then image
             else "registry.fedoraproject.org/f" ++ release ++ "/" ++ image]) := by
  refine ⟨pull_queries env image release, fun h => pull_hit env image release h, fun h => ?_⟩
  rcases pull_cases env image release with h0 | h1
  · exact absurd h0 h
  · exact h1

/-- C9: with the engine reporting a present, non-empty `RepoTags` array,
`getFullyQualifiedImageName` does not return the first tag and does not
fail with an explicit error: the type assertion
`info["RepoTags"].([]string)` panics, because a JSON-decoded array has
dynamic type `[]interface`, never `[]string`. -/
theorem c9_repotags_panics :
    getFullyQualifiedImageName envC9 "fedora-toolbox:32" =
      (.panicked "interface conversion: interface is not []string",
        [.engineInspect "image" "fedora-toolbox:32"])
    ∧ goIsNil (([("RepoTags",
        Jv.jarr [Jv.jstr "registry.fedoraproject.org/f32/fedora-toolbox:32"])]
          : List (String × Jv)).lookup "RepoTags") = false :=
  ⟨rfl, rfl⟩

/-- C10: `PathExists` is false only when the stat probe reports that the
path does not exist; any other outcome, a permission error included,
yields true — so `IsInsideContainer` and `IsInsideToolboxContainer` report
being inside a container whenever their sentinel path is unreadable, not
only when it is present. -/
theorem c10_path_exists_semantics :
    (∀ r : StatResult, (PathExists r = false ↔ r = .errNotExist))
    ∧ ∀ env : HostEnv,
        (env.stat "/run/.containerenv" ≠ .errNotExist → IsInsideContainer env = true)
        ∧ (env.stat "/run/.toolboxenv" ≠ .errNotExist →
            IsInsideToolboxContainer env = true) := by
  have hpe : ∀ r : StatResult, (PathExists r = false ↔ r = .errNotExist) := by
    intro r; cases r <;> simp [PathExists]
  refine ⟨hpe, fun env => ⟨fun h => ?_, fun h => ?_⟩⟩
  · show PathExists (env.stat "/run/.containerenv") = true
    cases hb : PathExists (env.stat "/run/.containerenv")
    · exact absurd ((hpe _).mp hb) h
    · rfl
  · show PathExists (env.stat "/run/.toolboxenv") = true
    cases hb : PathExists (env.stat "/run/.toolboxenv")
    · exact absurd ((hpe _).mp hb) h
    · rfl

end Toolbox
